import Mathlib

/-!
Verification of the go-music-shop repository: a shallow embedding of the
album data model, the durable record store (PostgreSQL repository), the
in-memory repository, the business service, and — above all — the caching
decorator (`CachedAlbumRepository`), together with theorems settling the
specification claims about them.

Modelling conventions:
* Go `time.Time` values are modelled as `Nat` clock ticks; every call of
  `time.Now()` in the source is a separate clock-read parameter.
* Go `float64` prices are modelled as `Int`: no claim depends on
  floating-point semantics, only on sign comparisons and equality.
* Go errors are modelled as the `String` produced by `fmt.Errorf`
  (`%w` appends the wrapped error's message text).
* The Redis cache backend is modelled through the observable outcome of a
  single `Get` (backend error / miss / hit carrying a payload) and through
  the cache operations the decorator dispatches (key deletions and
  key-value-TTL writes); the fire-and-forget goroutines make the time at
  which those dispatched operations land unspecified, so the decorator
  functions return the dispatched operations as data.
* `json.Marshal` of an album or album list never fails, and
  `json.Unmarshal` of a stored payload succeeds exactly when the payload
  has the expected shape; a payload of any other shape is `corrupt`.
-/

namespace MusicShop

/-- The album record, from internal/domain/models/album.go. -/
structure Album where
  id : String
  title : String
  artist : String
  price : Int
  year : Int
  genre : String
  condition : String
  inStock : Bool
  createdAt : Nat
  updatedAt : Nat
deriving DecidableEq

/-- A deserialized cache payload: a single album, an album list, or a
payload that deserializes as neither (corrupt / wrong shape). -/
inductive CacheVal where
  | one (a : Album)
  | many (l : List Album)
  | corrupt
deriving DecidableEq

/-- Outcome of the bounded-time `redis.Get` performed by every decorator
read: a backend error (in which case `RedisClient.Get` returns the empty
string alongside the error), a miss (empty string, nil error), or a hit
carrying a nonempty payload. -/
inductive CacheGetResult where
  | err
  | miss
  | hit (v : CacheVal)
deriving DecidableEq

/-- Result of `json.Unmarshal` of a payload into `[]domain.Album`. -/
def decodeAlbums : CacheVal → Option (List Album)
  | .many l => some l
  | _ => none

/-- Result of `json.Unmarshal` of a payload into `domain.Album`. -/
def decodeAlbum : CacheVal → Option Album
  | .one a => some a
  | _ => none

/-- The list of albums a decorator list-read obtains from the cache, when
the `Get` produced a nonempty payload that deserializes as a list;
`none` on backend error, miss, or undecodable payload. -/
def cacheHitList : CacheGetResult → Option (List Album)
  | .hit v => decodeAlbums v
  | _ => none

/-- The single album a decorator `GetByID` obtains from the cache, when
the `Get` produced a nonempty payload that deserializes as one album;
`none` on backend error, miss, or undecodable payload. -/
def cacheHitOne : CacheGetResult → Option Album
  | .hit v => decodeAlbum v
  | _ => none

/-- Cache key construction, from `CachedAlbumRepository.generateCacheKey`:
`fmt.Sprintf("album:%s:%s", dataType, id)`. -/
def generateCacheKey (dataType : String) (id : String) : String :=
  "album:" ++ dataType ++ ":" ++ id

/-- A cache write dispatched by the decorator: `redis.Set(key, value, ttl)`
with the TTL in seconds. -/
structure CacheSet where
  key : String
  value : CacheVal
  ttlSeconds : Nat
deriving DecidableEq

/-- CachedAlbumRepository.GetAll: serve a decodable cache hit directly;
otherwise (backend error, miss, or corrupt payload) delegate to the store,
propagating a store error unchanged and otherwise dispatching an
asynchronous population of the "all" key with a 1-minute TTL.
Returns the caller-visible result and the dispatched population. -/
def cachedGetAll (cacheRes : CacheGetResult) (storeRes : Except String (List Album)) :
    Except String (List Album) × Option CacheSet :=
  match cacheHitList cacheRes with
  | some albums => (.ok albums, none)
  | none =>
    match storeRes with
    | .error e => (.error e, none)
    | .ok albums =>
      (.ok albums, some ⟨generateCacheKey "all" "", CacheVal.many albums, 60⟩)

/-- CachedAlbumRepository.GetByID: same read-through shape as `GetAll`,
keyed on `"id"`/the album id, population TTL 5 minutes. -/
def cachedGetByID (id : String) (cacheRes : CacheGetResult) (storeRes : Except String Album) :
    Except String Album × Option CacheSet :=
  match cacheHitOne cacheRes with
  | some album => (.ok album, none)
  | none =>
    match storeRes with
    | .error e => (.error e, none)
    | .ok album =>
      (.ok album, some ⟨generateCacheKey "id" id, CacheVal.one album, 300⟩)

/-- CachedAlbumRepository.GetByArtist: read-through keyed on
`"artist"`/the artist name, population TTL 2 minutes. -/
def cachedGetByArtist (artist : String) (cacheRes : CacheGetResult)
    (storeRes : Except String (List Album)) :
    Except String (List Album) × Option CacheSet :=
  match cacheHitList cacheRes with
  | some albums => (.ok albums, none)
  | none =>
    match storeRes with
    | .error e => (.error e, none)
    | .ok albums =>
      (.ok albums, some ⟨generateCacheKey "artist" artist, CacheVal.many albums, 120⟩)

/-- CachedAlbumRepository.GetInStock: read-through keyed on `"stock"`/"",
population TTL 30 seconds. -/
def cachedGetInStock (cacheRes : CacheGetResult) (storeRes : Except String (List Album)) :
    Except String (List Album) × Option CacheSet :=
  match cacheHitList cacheRes with
  | some albums => (.ok albums, none)
  | none =>
    match storeRes with
    | .error e => (.error e, none)
    | .ok albums =>
      (.ok albums, some ⟨generateCacheKey "stock" "", CacheVal.many albums, 30⟩)

/-- The cache operations a decorator write dispatches in its goroutine:
the cache keys it deletes (in dispatch order) and the optional pre-warm
write (`cacheAlbum`, used by `Create` only). -/
structure WriteEffects where
  invalidations : List String
  prewarm : Option CacheSet
deriving DecidableEq

/-- CachedAlbumRepository.cacheAlbum: pre-warm the by-id entry of an album
with a 5-minute TTL. -/
def cacheAlbum (album : Album) : CacheSet :=
  ⟨generateCacheKey "id" album.id, CacheVal.one album, 300⟩

/-- CachedAlbumRepository.Create: delegate to the store; on store error
return it unchanged with no cache interaction; on success dispatch
invalidation of the new album's by-artist key and the stock key, and
pre-warm the by-id entry. `storeRes` carries, on success, the album as
mutated by the store (assigned id and timestamps). -/
def cachedCreate (storeRes : Except String Album) :
    Except String Album × WriteEffects :=
  match storeRes with
  | .error e => (.error e, ⟨[], none⟩)
  | .ok album =>
    (.ok album,
      ⟨[generateCacheKey "artist" album.artist, generateCacheKey "stock" ""],
        some (cacheAlbum album)⟩)

/-- CachedAlbumRepository.Update: `oldRes` is the best-effort pre-mutation
`repo.GetByID(album.ID)` (its error is discarded; `oldAlbum` is nil
exactly when it failed); on store error return it unchanged with no cache
interaction; on success dispatch invalidation of the by-id key, the old
artist's key when the pre-read succeeded, the new artist's key, and the
stock key. -/
def cachedUpdate (oldRes : Except String Album) (storeRes : Except String Unit)
    (album : Album) : Except String Unit × WriteEffects :=
  match storeRes with
  | .error e => (.error e, ⟨[], none⟩)
  | .ok _ =>
    (.ok (),
      ⟨[generateCacheKey "id" album.id] ++
        (match oldRes with
          | .ok old => [generateCacheKey "artist" old.artist]
          | .error _ => []) ++
        [generateCacheKey "artist" album.artist, generateCacheKey "stock" ""],
        none⟩)

/-- CachedAlbumRepository.Delete: `preRes` is the best-effort pre-deletion
`repo.GetByID(id)`; on store error return it unchanged with no cache
interaction; on success dispatch invalidation of the by-id key, the
album's artist key when the pre-read succeeded, and the stock key. -/
def cachedDelete (preRes : Except String Album) (storeRes : Except String Unit)
    (id : String) : Except String Unit × WriteEffects :=
  match storeRes with
  | .error e => (.error e, ⟨[], none⟩)
  | .ok _ =>
    (.ok (),
      ⟨[generateCacheKey "id" id] ++
        (match preRes with
          | .ok album => [generateCacheKey "artist" album.artist]
          | .error _ => []) ++
        [generateCacheKey "stock" ""],
        none⟩)

/-- Failure modes of the database layer visible to a repository write:
`execErr` when `db.Exec`/`db.Query` itself errors, `rowsErr` when the
statement ran but `result.RowsAffected()` errors. -/
inductive DbFailure where
  | execErr (msg : String)
  | rowsErr (msg : String)
deriving DecidableEq

/-- generateID (repository package): `fmt.Sprintf("%d", time.Now().UnixNano())`,
modelled on the `Nat` clock tick. -/
def generateID (nowUnixNano : Nat) : String :=
  Nat.repr nowUnixNano

/-- PostgresAlbumRepository.GetByID: the albums table is a row list;
`dbErr` is a query/scan failure of the underlying database (wrapped as
"failed to get album: %w"); with a healthy database, the first row whose
id matches is returned, and `sql.ErrNoRows` becomes the error
"album not found". -/
def pgGetByID (dbErr : Option String) (table : List Album) (id : String) :
    Except String Album :=
  match dbErr with
  | some e => .error ("failed to get album: " ++ e)
  | none =>
    match table.find? (fun a => a.id == id) with
    | some album => .ok album
    | none => .error "album not found"

/-- PostgresAlbumRepository.Create: assigns `ID = generateID()` from one
clock read and fills the two timestamps from two further `time.Now()`
reads, then INSERTs the row; on an Exec error ("failed to create album: %w")
the table is unchanged. Returns the table after the call and the result
(the album as mutated, on success). -/
def pgCreate (dbErr : Option String) (tId tCreated tUpdated : Nat)
    (table : List Album) (album : Album) : List Album × Except String Album :=
  let created :=
    { album with id := generateID tId, createdAt := tCreated, updatedAt := tUpdated }
  match dbErr with
  | some e => (table, .error ("failed to create album: " ++ e))
  | none => (table ++ [created], .ok created)

/-- The SET clause of the UPDATE statement of
PostgresAlbumRepository.Update, applied to one matching row: every column
except `id` and `created_at` is overwritten from the incoming album. -/
def applySet (incoming : Album) (a : Album) : Album :=
  { a with
    title := incoming.title
    artist := incoming.artist
    price := incoming.price
    year := incoming.year
    genre := incoming.genre
    condition := incoming.condition
    inStock := incoming.inStock
    updatedAt := incoming.updatedAt }

/-- PostgresAlbumRepository.Update: refreshes `UpdatedAt` from a clock
read, then UPDATEs every row with a matching id, setting all columns
except `id` and `created_at`; zero rows affected means
"album with ID ... not found". On `rowsErr` the UPDATE itself has
committed (the table reflects it) but an error is still returned. -/
def pgUpdate (dbErr : Option DbFailure) (tUpdated : Nat)
    (table : List Album) (album : Album) : List Album × Except String Album :=
  let incoming := { album with updatedAt := tUpdated }
  let updatedTable := table.map (fun a =>
    if a.id == album.id then applySet incoming a else a)
  match dbErr with
  | some (.execErr e) => (table, .error ("failed to update album: " ++ e))
  | some (.rowsErr e) => (updatedTable, .error ("updating rows error: " ++ e))
  | none =>
    if table.any (fun a => a.id == album.id) then (updatedTable, .ok incoming)
    else (updatedTable, .error ("album with ID " ++ album.id ++ " not found"))

/-- PostgresAlbumRepository.Delete: DELETEs every row with a matching id;
zero rows affected means "album with ID ... not found". On `rowsErr` the
DELETE has committed but an error is still returned. -/
def pgDelete (dbErr : Option DbFailure) (table : List Album) (id : String) :
    List Album × Except String Unit :=
  let remaining := table.filter (fun a => !(a.id == id))
  match dbErr with
  | some (.execErr e) => (table, .error ("failed to delete album: " ++ e))
  | some (.rowsErr e) => (remaining, .error ("deleting rows error: " ++ e))
  | none =>
    if table.any (fun a => a.id == id) then (remaining, .ok ())
    else (remaining, .error ("album with ID " ++ id ++ " not found"))

/-- MemoryAlbumRepository.Create: assigns id and both timestamps from
three clock reads (generateID, then two `time.Now()` calls) and appends
the album to the slice; never fails. -/
def memCreate (tId tCreated tUpdated : Nat) (albums : List Album) (album : Album) :
    List Album × Album :=
  let created :=
    { album with id := generateID tId, createdAt := tCreated, updatedAt := tUpdated }
  (albums ++ [created], created)

/-- AlbumService.UpdateAlbum over the PostgreSQL repository: validates id,
title and price, requires the target record to exist via `GetByID`
(wrapping its error as the domain error "album not found %w"), copies the
existing record's `CreatedAt` onto the incoming album, and delegates to
`Update`. Returns the table after the call and the result. -/
def svcUpdateAlbum (dbErrGet : Option String) (dbErrUpd : Option DbFailure)
    (tUpdated : Nat) (table : List Album) (album : Album) :
    List Album × Except String Album :=
  if album.id == "" then (table, .error "id cannot be empty")
  else if album.title == "" then (table, .error "title cannot be empty")
  else if album.price < 0 then (table, .error "price cannot be negative")
  else
    match pgGetByID dbErrGet table album.id with
    | .error e => (table, .error ("album not found " ++ e))
    | .ok existing =>
      pgUpdate dbErrUpd tUpdated table { album with createdAt := existing.createdAt }

/-!
Helper lemmas: nonemptiness of decimal representations and
disagreement of error and cache-key strings.
-/

theorem toDigitsCore_ne_nil (b fuel n : Nat) (ds : List Char) (h : ds ≠ []) :
    Nat.toDigitsCore b fuel n ds ≠ [] := by
  induction fuel generalizing n ds with
  | zero => simpa [Nat.toDigitsCore] using h
  | succ fuel ih =>
    unfold Nat.toDigitsCore
    by_cases hn : n / b = 0
    · simp [hn]
    · simp [hn]
      exact ih (n / b) (Nat.digitChar (n % b) :: ds) (by simp)

theorem toDigits_ne_nil (n : Nat) : Nat.toDigits 10 n ≠ [] := by
  unfold Nat.toDigits
  unfold Nat.toDigitsCore
  by_cases hn : n / 10 = 0
  · simp [hn]
  · simp [hn]
    exact toDigitsCore_ne_nil 10 n (n / 10) [Nat.digitChar (n % 10)] (by simp)

theorem natRepr_ne_empty (n : Nat) : Nat.repr n ≠ "" := by
  intro h
  have hd := congrArg String.data h
  have : Nat.toDigits 10 n = [] := by
    simpa [Nat.repr, List.asString] using hd
  exact toDigits_ne_nil n this

theorem head?_append_of_head? (l1 l2 : List Char) (c : Char) (h : l1.head? = some c) :
    (l1 ++ l2).head? = some c := by
  cases l1 with
  | nil => simp at h
  | cons a t => simpa using h

theorem string_ne_of_heads (s t u v : String) (c d : Char)
    (hs : s.data.head? = some c) (ht : t.data.head? = some d) (hcd : c ≠ d) :
    s ++ u ≠ t ++ v := by
  intro h
  have hdata := congrArg String.data h
  rw [String.data_append, String.data_append] at hdata
  have h1 := head?_append_of_head? s.data u.data c hs
  have h2 := head?_append_of_head? t.data v.data d ht
  rw [hdata, h2] at h1
  exact hcd (Option.some.inj h1.symm)

theorem string_ne_of_heads2 (s u t : String) (c d : Char)
    (hs : s.data.head? = some c) (ht : t.data.head? = some d) (hcd : c ≠ d) :
    s ++ u ≠ t := by
  intro h
  have hdata := congrArg String.data h
  rw [String.data_append] at hdata
  have h1 := head?_append_of_head? s.data u.data c hs
  rw [hdata, ht] at h1
  exact hcd (Option.some.inj h1.symm)

theorem string_ne_of_idx (s t : String) (k : Nat) (h : s.data[k]? ≠ t.data[k]?) :
    s ≠ t :=
  fun he => h (by rw [he])

theorem artist_key_ne_all_key (x : String) :
    generateCacheKey "artist" x ≠ generateCacheKey "all" "" := by
  apply string_ne_of_idx _ _ 8
  show ("album:artist:" ++ x).data[8]? ≠ ("album:all:" : String).data[8]?
  rw [String.data_append]
  rw [List.getElem?_append_left (by decide)]
  decide

theorem id_key_ne_all_key (x : String) :
    generateCacheKey "id" x ≠ generateCacheKey "all" "" := by
  apply string_ne_of_idx _ _ 6
  show ("album:id:" ++ x).data[6]? ≠ ("album:all:" : String).data[6]?
  rw [String.data_append]
  rw [List.getElem?_append_left (by decide)]
  decide

theorem stock_key_ne_all_key :
    generateCacheKey "stock" "" ≠ generateCacheKey "all" "" := by
  decide

/-- A sample album used to instantiate witness theorems. -/
def sampleAlbum : Album :=
  { id := "1", title := "Blue Train", artist := "John Coltrane", price := 57,
    year := 1957, genre := "Hard Bop", condition := "mint", inStock := true,
    createdAt := 0, updatedAt := 0 }

/-- Claim C1: for every read operation of the caching decorator (GetAll,
GetByID, GetByArtist, GetInStock), a cache-backend read error or a payload
that fails to deserialize behaves exactly like a cache miss — the
operation delegates to the durable store and returns the store's result —
and the caller sees an error only when the durable store itself errored,
never from any cache failure. -/
theorem cache_failure_treated_as_miss (id artist : String) (v : CacheVal)
    (sL sAr sS : Except String (List Album)) (sA : Except String Album)
    (hL : decodeAlbums v = none) (hA : decodeAlbum v = none) :
    (cachedGetAll .err sL = cachedGetAll .miss sL ∧
      cachedGetAll (.hit v) sL = cachedGetAll .miss sL ∧
      (cachedGetAll .miss sL).1 = sL) ∧
    (cachedGetByID id .err sA = cachedGetByID id .miss sA ∧
      cachedGetByID id (.hit v) sA = cachedGetByID id .miss sA ∧
      (cachedGetByID id .miss sA).1 = sA) ∧
    (cachedGetByArtist artist .err sAr = cachedGetByArtist artist .miss sAr ∧
      cachedGetByArtist artist (.hit v) sAr = cachedGetByArtist artist .miss sAr ∧
      (cachedGetByArtist artist .miss sAr).1 = sAr) ∧
    (cachedGetInStock .err sS = cachedGetInStock .miss sS ∧
      cachedGetInStock (.hit v) sS = cachedGetInStock .miss sS ∧
      (cachedGetInStock .miss sS).1 = sS) ∧
    (∀ (r : CacheGetResult) (e : String),
      ((cachedGetAll r sL).1 = .error e → sL = .error e) ∧
      ((cachedGetByID id r sA).1 = .error e → sA = .error e) ∧
      ((cachedGetByArtist artist r sAr).1 = .error e → sAr = .error e) ∧
      ((cachedGetInStock r sS).1 = .error e → sS = .error e)) := by
  refine ⟨⟨?_, ?_, ?_⟩, ⟨?_, ?_, ?_⟩, ⟨?_, ?_, ?_⟩, ⟨?_, ?_, ?_⟩, ?_⟩
  · cases sL <;> rfl
  · cases sL <;> simp [cachedGetAll, cacheHitList, hL]
  · cases sL <;> rfl
  · cases sA <;> rfl
  · cases sA <;> simp [cachedGetByID, cacheHitOne, hA]
  · cases sA <;> rfl
  · cases sAr <;> rfl
  · cases sAr <;> simp [cachedGetByArtist, cacheHitList, hL]
  · cases sAr <;> rfl
  · cases sS <;> rfl
  · cases sS <;> simp [cachedGetInStock, cacheHitList, hL]
  · cases sS <;> rfl
  · intro r e
    refine ⟨?_, ?_, ?_, ?_⟩
    · intro h
      cases r with
      | hit w =>
        cases hw : decodeAlbums w with
        | some l => simp [cachedGetAll, cacheHitList, hw] at h
        | none =>
          cases sL <;> simp_all [cachedGetAll, cacheHitList, hw]
      | err => cases sL <;> simp_all [cachedGetAll, cacheHitList]
      | miss => cases sL <;> simp_all [cachedGetAll, cacheHitList]
    · intro h
      cases r with
      | hit w =>
        cases hw : decodeAlbum w with
        | some a => simp [cachedGetByID, cacheHitOne, hw] at h
        | none =>
          cases sA <;> simp_all [cachedGetByID, cacheHitOne, hw]
      | err => cases sA <;> simp_all [cachedGetByID, cacheHitOne]
      | miss => cases sA <;> simp_all [cachedGetByID, cacheHitOne]
    · intro h
      cases r with
      | hit w =>
        cases hw : decodeAlbums w with
        | some l => simp [cachedGetByArtist, cacheHitList, hw] at h
        | none =>
          cases sAr <;> simp_all [cachedGetByArtist, cacheHitList, hw]
      | err => cases sAr <;> simp_all [cachedGetByArtist, cacheHitList]
      | miss => cases sAr <;> simp_all [cachedGetByArtist, cacheHitList]
    · intro h
      cases r with
      | hit w =>
        cases hw : decodeAlbums w with
        | some l => simp [cachedGetInStock, cacheHitList, hw] at h
        | none =>
          cases sS <;> simp_all [cachedGetInStock, cacheHitList, hw]
      | err => cases sS <;> simp_all [cachedGetInStock, cacheHitList]
      | miss => cases sS <;> simp_all [cachedGetInStock, cacheHitList]

/-- Witness for claim C1, at the corrupt payload and concrete store
results. -/
theorem cache_failure_treated_as_miss_witness :
    (cachedGetAll .err (.ok []) = cachedGetAll .miss (.ok []) ∧
      cachedGetAll (.hit .corrupt) (.ok []) = cachedGetAll .miss (.ok []) ∧
      (cachedGetAll .miss (.ok [])).1 = .ok []) ∧
    (cachedGetByID "1" .err (.ok sampleAlbum) = cachedGetByID "1" .miss (.ok sampleAlbum) ∧
      cachedGetByID "1" (.hit .corrupt) (.ok sampleAlbum) =
        cachedGetByID "1" .miss (.ok sampleAlbum) ∧
      (cachedGetByID "1" .miss (.ok sampleAlbum)).1 = .ok sampleAlbum) ∧
    (cachedGetByArtist "A" .err (.ok []) = cachedGetByArtist "A" .miss (.ok []) ∧
      cachedGetByArtist "A" (.hit .corrupt) (.ok []) = cachedGetByArtist "A" .miss (.ok []) ∧
      (cachedGetByArtist "A" .miss (.ok [])).1 = .ok []) ∧
    (cachedGetInStock .err (.ok []) = cachedGetInStock .miss (.ok []) ∧
      cachedGetInStock (.hit .corrupt) (.ok []) = cachedGetInStock .miss (.ok []) ∧
      (cachedGetInStock .miss (.ok [])).1 = .ok []) ∧
    (∀ (r : CacheGetResult) (e : String),
      ((cachedGetAll r (.ok [])).1 = .error e → (.ok [] : Except String (List Album)) = .error e) ∧
      ((cachedGetByID "1" r (.ok sampleAlbum)).1 = .error e →
        (.ok sampleAlbum : Except String Album) = .error e) ∧
      ((cachedGetByArtist "A" r (.ok [])).1 = .error e →
        (.ok [] : Except String (List Album)) = .error e) ∧
      ((cachedGetInStock r (.ok [])).1 = .error e →
        (.ok [] : Except String (List Album)) = .error e)) :=
  cache_failure_treated_as_miss "1" "A" .corrupt (.ok []) (.ok []) (.ok [])
    (.ok sampleAlbum) rfl rfl

/-- Claim C3: after a successful store Update the decorator dispatches
invalidation of exactly the by-id key, the pre-mutation artist's key when
the best-effort pre-read succeeded, the new artist's key and the stock
key; after a successful store Delete, exactly the by-id key, the record's
artist key when the pre-read succeeded, and the stock key; a failed
pre-read only drops the old-artist key and never fails the operation. -/
theorem write_invalidation_sets (album : Album) (id : String)
    (oldRes preRes : Except String Album) :
    ((cachedUpdate oldRes (.ok ()) album).1 = .ok () ∧
      (∀ old, oldRes = .ok old →
        (cachedUpdate oldRes (.ok ()) album).2.invalidations =
          [generateCacheKey "id" album.id, generateCacheKey "artist" old.artist,
            generateCacheKey "artist" album.artist, generateCacheKey "stock" ""]) ∧
      (∀ e, oldRes = .error e →
        (cachedUpdate oldRes (.ok ()) album).2.invalidations =
          [generateCacheKey "id" album.id,
            generateCacheKey "artist" album.artist, generateCacheKey "stock" ""])) ∧
    ((cachedDelete preRes (.ok ()) id).1 = .ok () ∧
      (∀ pre, preRes = .ok pre →
        (cachedDelete preRes (.ok ()) id).2.invalidations =
          [generateCacheKey "id" id, generateCacheKey "artist" pre.artist,
            generateCacheKey "stock" ""]) ∧
      (∀ e, preRes = .error e →
        (cachedDelete preRes (.ok ()) id).2.invalidations =
          [generateCacheKey "id" id, generateCacheKey "stock" ""])) := by
  refine ⟨⟨rfl, ?_, ?_⟩, ⟨rfl, ?_, ?_⟩⟩
  · intro old h
    subst h
    rfl
  · intro e h
    subst h
    rfl
  · intro pre h
    subst h
    rfl
  · intro e h
    subst h
    rfl

/-- Witness for claim C3, at concrete pre-read results. -/
theorem write_invalidation_sets_witness :
    (cachedUpdate (.ok sampleAlbum) (.ok ()) sampleAlbum).2.invalidations =
      [generateCacheKey "id" sampleAlbum.id,
        generateCacheKey "artist" sampleAlbum.artist,
        generateCacheKey "artist" sampleAlbum.artist, generateCacheKey "stock" ""] ∧
    (cachedDelete (.error "album not found") (.ok ()) "1").2.invalidations =
      [generateCacheKey "id" "1", generateCacheKey "stock" ""] :=
  ⟨(write_invalidation_sets sampleAlbum "1" (.ok sampleAlbum)
      (.error "album not found")).1.2.1 sampleAlbum rfl,
    (write_invalidation_sets sampleAlbum "1" (.ok sampleAlbum)
      (.error "album not found")).2.2.2 "album not found" rfl⟩

/-- Claim C5: when the durable store rejects a write, each decorator write
operation returns the store's error unchanged and dispatches no cache
interaction at all — no invalidation and no pre-warm. -/
theorem failed_write_leaves_cache_alone (e : String) (album : Album)
    (id : String) (oldRes preRes : Except String Album) :
    cachedCreate (.error e) = (.error e, ⟨[], none⟩) ∧
    cachedUpdate oldRes (.error e) album = (.error e, ⟨[], none⟩) ∧
    cachedDelete preRes (.error e) id = (.error e, ⟨[], none⟩) :=
  ⟨rfl, rfl, rfl⟩

/-- Claim C6: every cache population the decorator dispatches carries the
category-specific TTL — 60 seconds for the all-albums list, 300 seconds
for a by-id entry (including the entry pre-warmed by Create), 120 seconds
for a by-artist list and 30 seconds for the in-stock list. -/
theorem populations_use_category_ttl (id artist : String) (r : CacheGetResult)
    (sL sAr sS : Except String (List Album)) (sA : Except String Album)
    (sRes : Except String Album) (p c : CacheSet) :
    ((cachedGetAll r sL).2 = some p → p.ttlSeconds = 60) ∧
    ((cachedGetByID id r sA).2 = some p → p.ttlSeconds = 300) ∧
    ((cachedGetByArtist artist r sAr).2 = some p → p.ttlSeconds = 120) ∧
    ((cachedGetInStock r sS).2 = some p → p.ttlSeconds = 30) ∧
    ((cachedCreate sRes).2.prewarm = some c → c.ttlSeconds = 300) := by
  refine ⟨?_, ?_, ?_, ?_, ?_⟩
  · intro h
    cases hr : cacheHitList r with
    | some l => simp [cachedGetAll, hr] at h
    | none =>
      cases sL <;> simp_all [cachedGetAll, hr]
      rw [← h]
  · intro h
    cases hr : cacheHitOne r with
    | some a => simp [cachedGetByID, hr] at h
    | none =>
      cases sA <;> simp_all [cachedGetByID, hr]
      rw [← h]
  · intro h
    cases hr : cacheHitList r with
    | some l => simp [cachedGetByArtist, hr] at h
    | none =>
      cases sAr <;> simp_all [cachedGetByArtist, hr]
      rw [← h]
  · intro h
    cases hr : cacheHitList r with
    | some l => simp [cachedGetInStock, hr] at h
    | none =>
      cases sS <;> simp_all [cachedGetInStock, hr]
      rw [← h]
  · intro h
    cases sRes <;> simp_all [cachedCreate, cacheAlbum]
    rw [← h]

/-- Witness for claim C6, at a miss followed by successful store reads and
a successful create. -/
theorem populations_use_category_ttl_witness :
    (⟨generateCacheKey "all" "", CacheVal.many [], 60⟩ : CacheSet).ttlSeconds = 60 ∧
    (⟨generateCacheKey "id" "1", CacheVal.one sampleAlbum, 300⟩ : CacheSet).ttlSeconds = 300 ∧
    (⟨generateCacheKey "artist" "A", CacheVal.many [], 120⟩ : CacheSet).ttlSeconds = 120 ∧
    (⟨generateCacheKey "stock" "", CacheVal.many [], 30⟩ : CacheSet).ttlSeconds = 30 ∧
    (cacheAlbum sampleAlbum).ttlSeconds = 300 := by
  have h := populations_use_category_ttl "1" "A" .miss (.ok []) (.ok []) (.ok [])
    (.ok sampleAlbum) (.ok sampleAlbum)
  exact ⟨(h ⟨generateCacheKey "all" "", CacheVal.many [], 60⟩
      (cacheAlbum sampleAlbum)).1 rfl,
    (h ⟨generateCacheKey "id" "1", CacheVal.one sampleAlbum, 300⟩
      (cacheAlbum sampleAlbum)).2.1 rfl,
    (h ⟨generateCacheKey "artist" "A", CacheVal.many [], 120⟩
      (cacheAlbum sampleAlbum)).2.2.1 rfl,
    (h ⟨generateCacheKey "stock" "", CacheVal.many [], 30⟩
      (cacheAlbum sampleAlbum)).2.2.2.1 rfl,
    (h ⟨generateCacheKey "stock" "", CacheVal.many [], 30⟩
      (cacheAlbum sampleAlbum)).2.2.2.2 rfl⟩

/-- Claim C10: no decorator write (Create, Update, Delete) ever deletes or
writes the all-albums cache key: that key never appears among the
dispatched invalidations, the Create pre-warm never targets it, and the
only population that writes it is the one dispatched by GetAll itself. -/
theorem writes_never_touch_all_key (sRes oldRes preRes : Except String Album)
    (sU : Except String Unit) (album : Album) (id : String)
    (r : CacheGetResult) (sL : Except String (List Album)) (p c : CacheSet) :
    generateCacheKey "all" "" ∉ (cachedCreate sRes).2.invalidations ∧
    ((cachedCreate sRes).2.prewarm = some c → c.key ≠ generateCacheKey "all" "") ∧
    generateCacheKey "all" "" ∉ (cachedUpdate oldRes sU album).2.invalidations ∧
    generateCacheKey "all" "" ∉ (cachedDelete preRes sU id).2.invalidations ∧
    ((cachedGetAll r sL).2 = some p → p.key = generateCacheKey "all" "") := by
  refine ⟨?_, ?_, ?_, ?_, ?_⟩
  · cases sRes with
    | error e => simp [cachedCreate]
    | ok a =>
      simp only [cachedCreate, List.mem_cons, List.mem_singleton, List.not_mem_nil]
      push_neg
      exact ⟨fun h => (artist_key_ne_all_key a.artist) h.symm,
        fun h => stock_key_ne_all_key h.symm, by simp⟩
  · intro h
    cases sRes with
    | error e => simp [cachedCreate] at h
    | ok a =>
      simp only [cachedCreate, cacheAlbum, Option.some.injEq] at h
      subst h
      exact fun hk => (id_key_ne_all_key a.id) hk
  · cases sU with
    | error e => simp [cachedUpdate]
    | ok u =>
      cases oldRes with
      | error e =>
        simp only [cachedUpdate, List.cons_append, List.nil_append, List.mem_cons,
          List.not_mem_nil]
        push_neg
        exact ⟨fun h => (id_key_ne_all_key album.id) h.symm,
          fun h => (artist_key_ne_all_key album.artist) h.symm,
          fun h => stock_key_ne_all_key h.symm, by simp⟩
      | ok old =>
        simp only [cachedUpdate, List.cons_append, List.nil_append, List.mem_cons,
          List.not_mem_nil]
        push_neg
        exact ⟨fun h => (id_key_ne_all_key album.id) h.symm,
          fun h => (artist_key_ne_all_key old.artist) h.symm,
          fun h => (artist_key_ne_all_key album.artist) h.symm,
          fun h => stock_key_ne_all_key h.symm, by simp⟩
  · cases sU with
    | error e => simp [cachedDelete]
    | ok u =>
      cases preRes with
      | error e =>
        simp only [cachedDelete, List.cons_append, List.nil_append, List.mem_cons,
          List.not_mem_nil]
        push_neg
        exact ⟨fun h => (id_key_ne_all_key id) h.symm,
          fun h => stock_key_ne_all_key h.symm, by simp⟩
      | ok pre =>
        simp only [cachedDelete, List.cons_append, List.nil_append, List.mem_cons,
          List.not_mem_nil]
        push_neg
        exact ⟨fun h => (id_key_ne_all_key id) h.symm,
          fun h => (artist_key_ne_all_key pre.artist) h.symm,
          fun h => stock_key_ne_all_key h.symm, by simp⟩
  · intro h
    cases hr : cacheHitList r with
    | some l => simp [cachedGetAll, hr] at h
    | none =>
      cases sL <;> simp_all [cachedGetAll, hr]
      rw [← h]

/-- Witness for claim C10, at a successful create, update, delete and an
all-albums read answered by the store. -/
theorem writes_never_touch_all_key_witness :
    generateCacheKey "all" "" ∉
      (cachedCreate (.ok sampleAlbum)).2.invalidations ∧
    (cacheAlbum sampleAlbum).key ≠ generateCacheKey "all" "" ∧
    generateCacheKey "all" "" ∉
      (cachedUpdate (.ok sampleAlbum) (.ok ()) sampleAlbum).2.invalidations ∧
    generateCacheKey "all" "" ∉
      (cachedDelete (.ok sampleAlbum) (.ok ()) "1").2.invalidations ∧
    (⟨generateCacheKey "all" "", CacheVal.many [], 60⟩ : CacheSet).key =
      generateCacheKey "all" "" := by
  have h := writes_never_touch_all_key (.ok sampleAlbum) (.ok sampleAlbum)
    (.ok sampleAlbum) (.ok ()) sampleAlbum "1" .miss (.ok [])
    ⟨generateCacheKey "all" "", CacheVal.many [], 60⟩ (cacheAlbum sampleAlbum)
  exact ⟨h.1, h.2.1 rfl, h.2.2.1, h.2.2.2.1, h.2.2.2.2 rfl⟩

theorem find?_id_filter_ne (table : List Album) (id : String) :
    (table.filter (fun a => !(a.id == id))).find? (fun a => a.id == id) = none := by
  apply List.find?_eq_none.mpr
  intro a ha
  have h := (List.mem_filter.mp ha).2
  simpa using h

/-- Claim C8: with a healthy database, an identifier absent from the table
makes GetByID, Update and Delete fail with their dedicated not-found
errors, and these error values differ from the error produced by any
database failure (query/scan error, rows-affected error) of the same
operations, so callers can tell not-found apart from every other
failure. -/
theorem store_not_found_distinguishable (table : List Album) (id : String)
    (album : Album) (tU : Nat)
    (habs : table.find? (fun a => a.id == id) = none) (hid : album.id = id) :
    pgGetByID none table id = .error "album not found" ∧
    (pgUpdate none tU table album).2 =
      .error ("album with ID " ++ id ++ " not found") ∧
    (pgDelete none table id).2 =
      .error ("album with ID " ++ id ++ " not found") ∧
    (∀ e, pgGetByID (some e) table id ≠ .error "album not found") ∧
    (∀ f, (pgUpdate (some f) tU table album).2 ≠
      .error ("album with ID " ++ id ++ " not found")) ∧
    (∀ f, (pgDelete (some f) table id).2 ≠
      .error ("album with ID " ++ id ++ " not found")) := by
  subst hid
  have hnone := List.find?_eq_none.mp habs
  have hany : table.any (fun a => a.id == album.id) = false :=
    List.any_eq_false.mpr hnone
  refine ⟨?_, ?_, ?_, ?_, ?_, ?_⟩
  · simp [pgGetByID, habs]
  · simp [pgUpdate, hany]
  · simp [pgDelete, hany]
  · intro e h
    have h2 : "failed to get album: " ++ e = "album not found" := by
      simpa [pgGetByID] using h
    exact string_ne_of_heads2 "failed to get album: " e "album not found"
      'f' 'a' rfl rfl (by decide) h2
  · intro f h
    cases f with
    | execErr e =>
      have h2 : "failed to update album: " ++ e =
          "album with ID " ++ album.id ++ " not found" := by
        simpa [pgUpdate] using h
      rw [String.append_assoc] at h2
      exact string_ne_of_heads "failed to update album: " "album with ID "
        e (album.id ++ " not found") 'f' 'a' rfl rfl (by decide) h2
    | rowsErr e =>
      have h2 : "updating rows error: " ++ e =
          "album with ID " ++ album.id ++ " not found" := by
        simpa [pgUpdate] using h
      rw [String.append_assoc] at h2
      exact string_ne_of_heads "updating rows error: " "album with ID "
        e (album.id ++ " not found") 'u' 'a' rfl rfl (by decide) h2
  · intro f h
    cases f with
    | execErr e =>
      have h2 : "failed to delete album: " ++ e =
          "album with ID " ++ album.id ++ " not found" := by
        simpa [pgDelete] using h
      rw [String.append_assoc] at h2
      exact string_ne_of_heads "failed to delete album: " "album with ID "
        e (album.id ++ " not found") 'f' 'a' rfl rfl (by decide) h2
    | rowsErr e =>
      have h2 : "deleting rows error: " ++ e =
          "album with ID " ++ album.id ++ " not found" := by
        simpa [pgDelete] using h
      rw [String.append_assoc] at h2
      exact string_ne_of_heads "deleting rows error: " "album with ID "
        e (album.id ++ " not found") 'd' 'a' rfl rfl (by decide) h2

/-- Witness for claim C8, at an empty table and the identifier "7". -/
theorem store_not_found_distinguishable_witness :
    pgGetByID none [] "7" = .error "album not found" ∧
    (pgUpdate none 3 [] { sampleAlbum with id := "7" }).2 =
      .error ("album with ID " ++ "7" ++ " not found") ∧
    (pgDelete none [] "7").2 =
      .error ("album with ID " ++ "7" ++ " not found") ∧
    (∀ e, pgGetByID (some e) [] "7" ≠ .error "album not found") ∧
    (∀ f, (pgUpdate (some f) 3 [] { sampleAlbum with id := "7" }).2 ≠
      .error ("album with ID " ++ "7" ++ " not found")) ∧
    (∀ f, (pgDelete (some f) [] "7").2 ≠
      .error ("album with ID " ++ "7" ++ " not found")) :=
  store_not_found_distinguishable [] "7" { sampleAlbum with id := "7" } 3 rfl rfl

/-- Claim C9 as stated is false on the code: `Create` fills the two
timestamps from two separate `time.Now()` reads, so whenever the second
read ticks past the first the created record has
`createdAt ≠ updatedAt`; here at clock reads 6 and 7. -/
theorem create_equal_timestamps_counterexample :
    (pgCreate none 5 6 7 [] sampleAlbum).2 =
      .ok { sampleAlbum with id := "5", createdAt := 6, updatedAt := 7 } ∧
    ({ sampleAlbum with id := "5", createdAt := 6, updatedAt := 7 } : Album).createdAt ≠
      ({ sampleAlbum with id := "5", createdAt := 6, updatedAt := 7 } : Album).updatedAt := by
  exact ⟨rfl, by decide⟩

/-- Claim C9 amended: every album accepted by Create (both the PostgreSQL
and the in-memory repository) gets a non-empty store-assigned identifier,
and its two timestamps are the two clock reads taken at creation, so
`createdAt ≤ updatedAt` under a monotone clock, with equality exactly when
the two reads coincide. -/
theorem create_assigns_id_and_timestamps (tId t1 t2 : Nat) (table : List Album)
    (album : Album) (hmono : t1 ≤ t2) :
    ∃ created,
      (pgCreate none tId t1 t2 table album).2 = .ok created ∧
      (memCreate tId t1 t2 table album).2 = created ∧
      created.id ≠ "" ∧
      created.createdAt = t1 ∧
      created.updatedAt = t2 ∧
      created.createdAt ≤ created.updatedAt ∧
      (t1 = t2 → created.createdAt = created.updatedAt) := by
  refine ⟨{ album with id := generateID tId, createdAt := t1, updatedAt := t2 },
    rfl, rfl, ?_, rfl, rfl, hmono, fun h => h⟩
  exact natRepr_ne_empty tId

/-- Witness for claim C9 amended, at coinciding clock reads 2 and 2. -/
theorem create_assigns_id_and_timestamps_witness :
    ∃ created,
      (pgCreate none 1 2 2 [] sampleAlbum).2 = .ok created ∧
      (memCreate 1 2 2 [] sampleAlbum).2 = created ∧
      created.id ≠ "" ∧
      created.createdAt = 2 ∧
      created.updatedAt = 2 ∧
      created.createdAt ≤ created.updatedAt ∧
      (2 = 2 → created.createdAt = created.updatedAt) :=
  create_assigns_id_and_timestamps 1 2 2 [] sampleAlbum (by decide)

/-- Claim C2: after a successful Create through the caching decorator, an
immediate GetByID with the assigned identifier returns the created record
— whether the cache read errors, misses (so the store answers, covering a
pre-warm that has not landed), or hits the pre-warmed by-id entry — and
the created record preserves every caller-supplied field, differing only
in the store-assigned identifier and timestamps. -/
theorem create_then_getByID_roundtrip (table : List Album) (album created : Album)
    (tId t1 t2 : Nat) (r : CacheGetResult)
    (hfresh : ∀ a ∈ table, a.id ≠ generateID tId)
    (hok : (pgCreate none tId t1 t2 table album).2 = .ok created)
    (hr : r = .err ∨ r = .miss ∨ r = .hit (.one created)) :
    (cachedGetByID created.id r
      (pgGetByID none (pgCreate none tId t1 t2 table album).1 created.id)).1 =
      .ok created ∧
    created.title = album.title ∧ created.artist = album.artist ∧
    created.price = album.price ∧ created.year = album.year ∧
    created.genre = album.genre ∧ created.condition = album.condition ∧
    created.inStock = album.inStock := by
  simp only [pgCreate, Except.ok.injEq] at hok
  subst hok
  refine ⟨?_, rfl, rfl, rfl, rfl, rfl, rfl, rfl⟩
  have hfind : ((table ++
      [{ album with id := generateID tId, createdAt := t1, updatedAt := t2 }]).find?
        (fun a => a.id == generateID tId)) =
      some { album with id := generateID tId, createdAt := t1, updatedAt := t2 } := by
    rw [List.find?_append]
    have h1 : table.find? (fun a => a.id == generateID tId) = none :=
      List.find?_eq_none.mpr (fun a ha => by simpa using hfresh a ha)
    rw [h1]
    simp
  have hstore : pgGetByID none (pgCreate none tId t1 t2 table album).1
      ({ album with id := generateID tId, createdAt := t1, updatedAt := t2 } : Album).id =
      .ok { album with id := generateID tId, createdAt := t1, updatedAt := t2 } := by
    simp only [pgCreate, pgGetByID]
    rw [hfind]
  rcases hr with rfl | rfl | rfl
  · rw [hstore]
    rfl
  · rw [hstore]
    rfl
  · rfl

/-- A record as assigned by `pgCreate` at clock reads 3, 4, 5, used by
witness theorems. -/
def createdSample : Album :=
  { sampleAlbum with id := "3", createdAt := 4, updatedAt := 5 }

/-- Witness for claim C2, at an empty table, clock reads 3, 4, 5 and a
cache miss. -/
theorem create_then_getByID_roundtrip_witness :
    (cachedGetByID createdSample.id .miss
      (pgGetByID none (pgCreate none 3 4 5 [] sampleAlbum).1 createdSample.id)).1 =
      .ok createdSample ∧
    createdSample.title = sampleAlbum.title ∧
    createdSample.artist = sampleAlbum.artist ∧
    createdSample.price = sampleAlbum.price ∧
    createdSample.year = sampleAlbum.year ∧
    createdSample.genre = sampleAlbum.genre ∧
    createdSample.condition = sampleAlbum.condition ∧
    createdSample.inStock = sampleAlbum.inStock :=
  create_then_getByID_roundtrip [] sampleAlbum createdSample 3 4 5 .miss
    (by simp) rfl (Or.inr (Or.inl rfl))

/-- Claim C4 as stated is false on the code: the by-id invalidation of a
Delete is dispatched asynchronously, so a GetByID immediately after a
successful Delete can still hit a warm cache entry for the deleted id and
then returns the deleted record, not not-found; here on a one-row table
whose only record is deleted while its by-id entry is still cached. -/
theorem delete_then_getByID_counterexample :
    pgDelete none [sampleAlbum] "1" = ([], .ok ()) ∧
    (cachedDelete (pgGetByID none [sampleAlbum] "1")
      (pgDelete none [sampleAlbum] "1").2 "1").1 = .ok () ∧
    (cachedGetByID "1" (.hit (.one sampleAlbum)) (pgGetByID none [] "1")).1 =
      .ok sampleAlbum ∧
    (.ok sampleAlbum : Except String Album) ≠ .error "album not found" := by
  refine ⟨rfl, rfl, rfl, by simp⟩

/-- Claim C4 amended: after a successful Delete the decorator always
dispatches the by-id invalidation (it is unconditional, unlike the
old-artist one), and any later GetByID whose cache read does not produce a
hit — in particular once that invalidation has landed, or after the entry
expired — reports the store's not-found error, since the row is gone from
the table. -/
theorem delete_invalidation_always_dispatched (table : List Album) (id : String)
    (preRes : Except String Album) (r : CacheGetResult)
    (hr : r = .err ∨ r = .miss) :
    generateCacheKey "id" id ∈ (cachedDelete preRes (.ok ()) id).2.invalidations ∧
    (cachedGetByID id r (pgGetByID none (pgDelete none table id).1 id)).1 =
      .error "album not found" := by
  constructor
  · cases preRes <;> simp [cachedDelete]
  · have h1 : (pgDelete none table id).1 = table.filter (fun a => !(a.id == id)) := by
      simp only [pgDelete]
      split <;> rfl
    have h2 : pgGetByID none (pgDelete none table id).1 id = .error "album not found" := by
      rw [h1]
      simp only [pgGetByID]
      rw [find?_id_filter_ne]
    rw [h2]
    rcases hr with rfl | rfl <;> rfl

/-- Witness for claim C4 amended, deleting the only row of a one-row table
and reading it back on a cache miss. -/
theorem delete_invalidation_always_dispatched_witness :
    generateCacheKey "id" "1" ∈
      (cachedDelete (.ok sampleAlbum) (.ok ()) "1").2.invalidations ∧
    (cachedGetByID "1" .miss
      (pgGetByID none (pgDelete none [sampleAlbum] "1").1 "1")).1 =
      .error "album not found" :=
  delete_invalidation_always_dispatched [sampleAlbum] "1" (.ok sampleAlbum) .miss
    (Or.inr rfl)

/-- Claim C7: through the business service over the PostgreSQL store, an
Update of an existing record preserves the stored record's creation
timestamp (the SET clause never touches `created_at`, and the service
copies the existing `CreatedAt` onto the incoming album) while refreshing
its update timestamp; an Update targeting an absent identifier fails with
the not-found domain error and leaves the table untouched. -/
theorem service_update_preserves_createdAt (table : List Album) (album : Album)
    (tU : Nat) (hid : album.id ≠ "") (htitle : album.title ≠ "")
    (hprice : ¬ album.price < 0) :
    (∀ existing, table.find? (fun a => a.id == album.id) = some existing →
      (svcUpdateAlbum none none tU table album).2 =
        .ok { album with createdAt := existing.createdAt, updatedAt := tU } ∧
      ∃ row,
        (svcUpdateAlbum none none tU table album).1.find?
          (fun a => a.id == album.id) = some row ∧
        row.createdAt = existing.createdAt ∧
        row.updatedAt = tU) ∧
    (table.find? (fun a => a.id == album.id) = none →
      svcUpdateAlbum none none tU table album =
        (table, .error ("album not found " ++ "album not found"))) := by
  constructor
  · intro existing hfind
    have hmem := List.mem_of_find?_eq_some hfind
    have hpa := List.find?_some hfind
    have hany : table.any (fun a => a.id == album.id) = true :=
      List.any_eq_true.mpr ⟨existing, hmem, hpa⟩
    have hsvc : svcUpdateAlbum none none tU table album =
        pgUpdate none tU table { album with createdAt := existing.createdAt } := by
      simp [svcUpdateAlbum, pgGetByID, hfind, hid, htitle, hprice]
    have hupd : pgUpdate none tU table { album with createdAt := existing.createdAt } =
        (table.map (fun a =>
          if a.id == album.id then
            applySet { album with createdAt := existing.createdAt, updatedAt := tU } a
          else a),
          .ok { album with createdAt := existing.createdAt, updatedAt := tU }) := by
      simp only [pgUpdate]
      rw [if_pos]
      exact hany
    rw [hsvc, hupd]
    refine ⟨rfl, applySet { album with createdAt := existing.createdAt, updatedAt := tU }
      existing, ?_, rfl, rfl⟩
    rw [List.find?_map]
    have hfun : ((fun a : Album => a.id == album.id) ∘ (fun a =>
        if a.id == album.id then
          applySet { album with createdAt := existing.createdAt, updatedAt := tU } a
        else a)) = fun a : Album => a.id == album.id := by
      funext a
      by_cases h : a.id = album.id
      · simp [h, applySet]
      · simp [h]
    rw [hfun, hfind]
    simp only [Option.map_some']
    rw [if_pos hpa]
  · intro hfind
    simp [svcUpdateAlbum, pgGetByID, hfind, hid, htitle, hprice]

/-- Witness for claim C7, updating the single row of a one-row table whose
stored creation timestamp is 42. -/
theorem service_update_preserves_createdAt_witness :
    ((svcUpdateAlbum none none 7 [{ sampleAlbum with createdAt := 42 }]
        { sampleAlbum with title := "Time Out" }).2 =
      .ok { { sampleAlbum with title := "Time Out" } with
        createdAt := ({ sampleAlbum with createdAt := 42 } : Album).createdAt,
        updatedAt := 7 } ∧
      ∃ row,
        (svcUpdateAlbum none none 7 [{ sampleAlbum with createdAt := 42 }]
          { sampleAlbum with title := "Time Out" }).1.find?
            (fun a => a.id == ({ sampleAlbum with title := "Time Out" } : Album).id) =
          some row ∧
        row.createdAt = ({ sampleAlbum with createdAt := 42 } : Album).createdAt ∧
        row.updatedAt = 7) :=
  (service_update_preserves_createdAt [{ sampleAlbum with createdAt := 42 }]
    { sampleAlbum with title := "Time Out" } 7 (by decide) (by decide)
    (by decide)).1 { sampleAlbum with createdAt := 42 } rfl

end MusicShop
